import Mathlib

/-!
Shallow embedding of the HarSaRK_RS_Multicore kernel core
(files src/system/resource.rs, src/system/semaphore.rs, src/system/shared.rs,
src/kernel/tasks.rs), together with proofs about the spec claims.

Machine integers are modelled as Nat; all bit vectors are u32 values and the
u32 complement is taken explicitly.  The PiStack and Scheduler types live in
repository files (src/system/pi_stack.rs, src/system/scheduler.rs) that are
not part of the provided sources, so their operations are modelled from the
specification where noted; every other definition is translated from the
Rust source.
-/

/-- u32 bitwise complement: xor with the all-ones 32-bit word. -/
def compl32 (x : Nat) : Nat := 0xffffffff ^^^ (x % 2 ^ 32)

/-- Compile-time bound on the number of resources.
Modelled from the spec: MAX_RESOURCES is a compile-time constant
(src/config is not among the provided sources); its concrete value does not
matter to any claim. -/
def MAX_RESOURCES : Nat := 32

/-- Kernel error codes, from the spec's error list plus the PiStack
underflow error named in the spec (src/errors is not among the provided
sources). -/
inductive KernelError where
  | LimitExceeded
  | AccessDenied
  | StackTooSmall
  | NotLocked
  | InvalidTaskPriority
  | TaskAlreadyExists
  | DoesNotExist
  | Underflow
deriving DecidableEq, Repr

/-- The ICPP priority-ceiling stack.
Modelled from the spec: src/system/pi_stack.rs is not among the provided
sources.  A bounded LIFO of ceiling values with depth MAX_RESOURCES plus a
system_ceiling scalar (an i32 with -1 sentinel when no resource is locked),
laid out as a fixed array and a top index as in
src/kernel/resource_management.rs. -/
structure PiStack where
  pi_stack : Array Int
  top : Nat
  system_ceiling : Int
deriving DecidableEq, Repr

/-- PiStack::new: empty stack, sentinel ceiling -1.
Modelled from the spec. -/
def PiStack.new : PiStack :=
  { pi_stack := Array.mkArray MAX_RESOURCES 0, top := 0, system_ceiling := -1 }

/-- PiStack::push_stack(ceiling): fails with LimitExceeded past depth;
otherwise pushes the current system ceiling and raises the system ceiling to
the argument.  Modelled from the spec:
pi_stack.push(system_ceiling); system_ceiling = ceiling. -/
def PiStack.push_stack (p : PiStack) (ceiling : Nat) :
    Except KernelError Unit × PiStack :=
  if p.top ≥ MAX_RESOURCES then (Except.error KernelError.LimitExceeded, p)
  else
    (Except.ok (),
      { pi_stack := p.pi_stack.set! p.top p.system_ceiling
        top := p.top + 1
        system_ceiling := Int.ofNat ceiling })

/-- PiStack::pop_stack: fails with the underflow error when empty; otherwise
restores the system ceiling from the stack top and drops it.  Modelled from
the spec (layout as ResourceManager::pop_stack in
src/kernel/resource_management.rs). -/
def PiStack.pop_stack (p : PiStack) : Except KernelError Unit × PiStack :=
  if p.top = 0 then (Except.error KernelError.Underflow, p)
  else
    (Except.ok (),
      { p with
        system_ceiling := p.pi_stack.get! (p.top - 1)
        top := p.top - 1 })

/-- Scheduler state, one instance per core.
Modelled from the spec: src/system/scheduler.rs is not among the provided
sources; the fields are those named by the spec's data model and accessed
directly by src/kernel/tasks.rs and src/system/shared.rs. -/
structure Scheduler where
  active_tasks : Nat
  blocked_tasks : Nat
  released_tasks : Nat
  curr_tid : Nat
  is_preemptive : Bool
  preempt_disable_count : Nat
  migrated_tasks : Nat
  migrated_tid : Nat
deriving DecidableEq, Repr

/-- Scheduler::new.  Modelled from the spec: empty bitmaps, idle task id 0,
preemption counter 0 (hence preemptive). -/
def Scheduler.new : Scheduler :=
  { active_tasks := 1, blocked_tasks := 0, released_tasks := 0, curr_tid := 0
    is_preemptive := true, preempt_disable_count := 0
    migrated_tasks := 0, migrated_tid := 0 }

/-- Scheduler::block_tasks: blocked_tasks |= tasks_mask.
Modelled from the spec. -/
def Scheduler.block_tasks (s : Scheduler) (tasks_mask : Nat) : Scheduler :=
  { s with blocked_tasks := s.blocked_tasks ||| tasks_mask }

/-- Scheduler::unblock_tasks: blocked_tasks &= !tasks_mask.
Modelled from the spec. -/
def Scheduler.unblock_tasks (s : Scheduler) (tasks_mask : Nat) : Scheduler :=
  { s with blocked_tasks := s.blocked_tasks &&& compl32 tasks_mask }

/-- Scheduler::release: released_tasks |= tasks_mask.
Modelled from the spec. -/
def Scheduler.release (s : Scheduler) (tasks_mask : Nat) : Scheduler :=
  { s with released_tasks := s.released_tasks ||| tasks_mask }

/-- Reference to one of the two global Scheduler singletons of
src/kernel/tasks.rs (TaskManager, TaskManager_C1). -/
inductive TmRef where
  | taskManager
  | taskManagerC1
deriving DecidableEq, Repr

/-- Reference to one of the two global PiStack singletons of
src/system/resource.rs (PiStackGlobal, PiStackGlobal_C1). -/
inductive PiRef where
  | piStackGlobal
  | piStackGlobalC1
deriving DecidableEq, Repr

/-- The mutable kernel globals: the two per-core schedulers and the two
per-core ceiling stacks. -/
structure KernelState where
  tm0 : Scheduler
  tm1 : Scheduler
  pi0 : PiStack
  pi1 : PiStack
deriving DecidableEq, Repr

def KernelState.getTm (st : KernelState) : TmRef → Scheduler
  | TmRef.taskManager => st.tm0
  | TmRef.taskManagerC1 => st.tm1

def KernelState.setTm (st : KernelState) : TmRef → Scheduler → KernelState
  | TmRef.taskManager, s => { st with tm0 := s }
  | TmRef.taskManagerC1, s => { st with tm1 := s }

def KernelState.getPi (st : KernelState) : PiRef → PiStack
  | PiRef.piStackGlobal => st.pi0
  | PiRef.piStackGlobalC1 => st.pi1

def KernelState.setPi (st : KernelState) : PiRef → PiStack → KernelState
  | PiRef.piStackGlobal, p => { st with pi0 := p }
  | PiRef.piStackGlobalC1, p => { st with pi1 := p }

/-- kernel::tasks::get_curr_tid. -/
def get_curr_tid (task_manager : TmRef) (st : KernelState) : Nat :=
  (st.getTm task_manager).curr_tid

/-- kernel::tasks::block_tasks (wrapper around Scheduler::block_tasks under
a critical section and the task-manager spinlock). -/
def block_tasks (task_manager : TmRef) (tasks_mask : Nat) (st : KernelState) :
    KernelState :=
  st.setTm task_manager ((st.getTm task_manager).block_tasks tasks_mask)

/-- kernel::tasks::unblock_tasks. -/
def unblock_tasks (task_manager : TmRef) (tasks_mask : Nat) (st : KernelState) :
    KernelState :=
  st.setTm task_manager ((st.getTm task_manager).unblock_tasks tasks_mask)

/-- kernel::tasks::release (sets the released bits, then calls schedule). -/
def release (task_manager : TmRef) (tasks_mask : Nat) (st : KernelState) :
    KernelState :=
  st.setTm task_manager ((st.getTm task_manager).release tasks_mask)

/-- kernel::tasks::schedule: reads is_preemptive and requests a deferred
context switch through the arch shim (PendSV or SVC); it mutates no
scheduler bitmap or stack itself, so on the kernel globals it is the
identity. -/
def schedule (task_manager : TmRef) (st : KernelState) : KernelState :=
  let _ := (st.getTm task_manager).is_preemptive
  st

/-- kernel::tasks::enable_preemption: decrements the u32 nesting counter
(wrapping), and restores is_preemptive when the counter reaches 0. -/
def enable_preemption (task_manager : TmRef) (st : KernelState) : KernelState :=
  let handler := st.getTm task_manager
  let c := (handler.preempt_disable_count + (2 ^ 32 - 1)) % 2 ^ 32
  let handler1 := { handler with preempt_disable_count := c }
  let handler2 :=
    if c = 0 then { handler1 with is_preemptive := true } else handler1
  st.setTm task_manager handler2

/-- kernel::tasks::disable_preemption: increments the u32 nesting counter
(wrapping) and clears is_preemptive. -/
def disable_preemption (task_manager : TmRef) (st : KernelState) : KernelState :=
  let handler := st.getTm task_manager
  let handler1 :=
    { handler with
      preempt_disable_count := (handler.preempt_disable_count + 1) % 2 ^ 32
      is_preemptive := false }
  st.setTm task_manager handler1

/-- Most-significant-bit index computed by halving, with enough fuel for
any 32-bit value. -/
def msbFrom : Nat → Nat → Nat
  | 0, _ => 0
  | fuel + 1, x => if x < 2 then 0 else msbFrom fuel (x / 2) + 1

/-- utils::helpers::get_msb_const.  Modelled from the spec: index of the
most-significant set bit of a 32-bit word (the source helper file is not
among the provided sources). -/
def get_msb_const (x : Nat) : Nat := msbFrom 32 x

theorem msbFrom_eq_log2 (fuel : Nat) :
    ∀ x : Nat, x < 2 ^ fuel → msbFrom fuel x = Nat.log2 x := by
  induction fuel with
  | zero =>
      intro x hx
      interval_cases x
      rw [Nat.log2]
      norm_num
      rfl
  | succ f ih =>
      intro x hx
      rw [msbFrom]
      by_cases h2 : x < 2
      · rw [if_pos h2, Nat.log2]
        rw [if_neg (by omega)]
      · rw [if_neg h2, Nat.log2, if_pos (by omega)]
        rw [ih (x / 2) (by omega)]

/-- On 32-bit values the fuel-based MSB agrees with Nat.log2. -/
theorem get_msb_const_eq_log2 (x : Nat) (hx : x < 2 ^ 32) :
    get_msb_const x = Nat.log2 x :=
  msbFrom_eq_log2 32 x hx

/-- system::resource::Resource<T>, translated from src/system/resource.rs.
The RefCell blocked_mask is a mutable field, so operations return the
updated Resource. -/
structure Resource (T : Type) where
  ceiling : Nat
  tasks_mask : Nat
  blocked_mask : Nat
  inner : T
  task_manager : TmRef
  pi_stack : PiRef
deriving Repr

/-- Resource::new: forces the idle/privileged bit into the mask and takes
the ceiling as the most-significant bit of the mask. -/
def Resource.new (T : Type) (task_manager : TmRef) (pi_stack : PiRef)
    (val : T) (tasks_mask : Nat) : Resource T :=
  let tasks_mask := tasks_mask ||| 1
  { task_manager := task_manager
    pi_stack := pi_stack
    inner := val
    tasks_mask := tasks_mask
    blocked_mask := 0
    ceiling := get_msb_const tasks_mask }

/-- Resource::lock, translated from src/system/resource.rs lines 71-110:
deny when the current task is outside tasks_mask; deny when the ceiling does
not exceed the system ceiling; otherwise push onto the construction-time
PiStack, remember tasks_mask & !blocked_tasks in blocked_mask, block
tasks_mask & !(1 << curr_tid), and return the payload. -/
def Resource.lock {T : Type} (r : Resource T) (st : KernelState) :
    Except KernelError T × Resource T × KernelState :=
  let pi := st.getPi r.pi_stack
  let curr_tid := get_curr_tid r.task_manager st
  let ceiling := r.ceiling
  let pid_mask := 1 <<< curr_tid
  if r.tasks_mask &&& pid_mask ≠ pid_mask then
    (Except.error KernelError.AccessDenied, r, st)
  else if (ceiling : Int) > pi.system_ceiling then
    match pi.push_stack ceiling with
    | (Except.error e, pi1) =>
        (Except.error e, r, st.setPi r.pi_stack pi1)
    | (Except.ok _, pi1) =>
        let st1 := st.setPi r.pi_stack pi1
        let r1 :=
          { r with
            blocked_mask :=
              r.tasks_mask &&& compl32 (st1.getTm r.task_manager).blocked_tasks }
        let st2 := block_tasks r.task_manager
          (compl32 (1 <<< curr_tid) &&& r.tasks_mask) st1
        (Except.ok r.inner, r1, st2)
  else
    (Except.error KernelError.AccessDenied, r, st)

/-- Resource::unlock, translated from src/system/resource.rs lines 113-131.
Note the source reads PiStackGlobal here, not the construction-time
pi_stack field.  When the resource ceiling equals the global system
ceiling: pop the global stack, unblock blocked_mask, schedule; otherwise do
nothing and return Ok. -/
def Resource.unlock {T : Type} (r : Resource T) (st : KernelState) :
    Except KernelError Unit × KernelState :=
  let pi := st.getPi PiRef.piStackGlobal
  if (r.ceiling : Int) = pi.system_ceiling then
    match pi.pop_stack with
    | (Except.error e, pi1) =>
        (Except.error e, st.setPi PiRef.piStackGlobal pi1)
    | (Except.ok _, pi1) =>
        let st1 := st.setPi PiRef.piStackGlobal pi1
        let st2 := unblock_tasks r.task_manager r.blocked_mask st1
        let st3 := schedule r.task_manager st2
        (Except.ok (), st3)
  else
    (Except.ok (), st)

/-- Resource::acquire: lock, run the handler, unlock.  The final Nat is
instrumentation counting how many times the user handler was invoked. -/
def Resource.acquire {T R : Type} (r : Resource T) (handler : T → R)
    (st : KernelState) :
    Except KernelError R × Resource T × KernelState × Nat :=
  match r.lock st with
  | (Except.error e, r1, st1) => (Except.error e, r1, st1, 0)
  | (Except.ok value, r1, st1) =>
    let res := handler value
    match r1.unlock st1 with
    | (Except.error e, st2) => (Except.error e, r1, st2, 1)
    | (Except.ok _, st2) => (Except.ok res, r1, st2, 1)

/-- system::semaphore::Semaphore, translated from src/system/semaphore.rs.
flags is a RefCell, so operations return the updated Semaphore. -/
structure Semaphore where
  flags : Nat
  tasks : Nat
  task_manager : TmRef
deriving DecidableEq, Repr

/-- Semaphore::new. -/
def Semaphore.new (task_manager : TmRef) (tasks : Nat) : Semaphore :=
  { task_manager := task_manager, flags := 0, tasks := tasks }

/-- Semaphore::signal_and_release, src/system/semaphore.rs lines 38-51:
flags |= tasks_mask; release the constant release mask; schedule. -/
def Semaphore.signal_and_release (sem : Semaphore) (tasks_mask : Nat)
    (st : KernelState) : Semaphore × KernelState :=
  let sem1 := { sem with flags := sem.flags ||| tasks_mask }
  let st1 := release sem.task_manager sem.tasks st
  let st2 := schedule sem.task_manager st1
  let st3 := schedule sem.task_manager st2
  (sem1, st3)

/-- Semaphore::test_and_reset, src/system/semaphore.rs lines 54-72: if the
current task's flag bit is set, clear it and return true, else false. -/
def Semaphore.test_and_reset (sem : Semaphore) (st : KernelState) :
    Except KernelError Bool × Semaphore :=
  let curr_tid := get_curr_tid sem.task_manager st
  let curr_tid_mask := 1 <<< curr_tid
  if sem.flags &&& curr_tid_mask = curr_tid_mask then
    (Except.ok true, { sem with flags := sem.flags &&& compl32 curr_tid_mask })
  else
    (Except.ok false, sem)

/-- system::shared::Shared<T>, translated from src/system/shared.rs.  The
AtomicBool lock and the shared RefCell curr_tid live in the SharedResource;
a view carries the wrapped Resource, the peer task mask it spins against
and the peer scheduler reference. -/
structure Shared (T : Type) where
  resource : Resource T
  other_resource_taskmask : Nat
  other_core_task_manager : TmRef
deriving Repr

/-- One iteration of the body of the spin loop in Shared::lock
(src/system/shared.rs lines 51-72), entered when the CAS on the resource
lock failed and TASKMANAGER_LOCK was obtained.  stored_curr_tid is the
value held in the SharedResource's curr_tid RefCell (the holder recorded at
lock time).  If the peer core's current task is outside the peer task mask,
migrate: add the stored holder to the peer scheduler's migrated_tasks and
record it as the local scheduler's migrated_tid; then schedule locally. -/
def Shared.spinIteration {T : Type} (sh : Shared T) (stored_curr_tid : Nat)
    (st : KernelState) : KernelState :=
  let oc_crr_tid := (st.getTm sh.other_core_task_manager).curr_tid
  if (1 <<< oc_crr_tid) &&& sh.other_resource_taskmask = 0 then
    let migrated_tid := stored_curr_tid
    let oc := st.getTm sh.other_core_task_manager
    let st1 := st.setTm sh.other_core_task_manager
      { oc with migrated_tasks := oc.migrated_tasks ||| (1 <<< migrated_tid) }
    let lc := st1.getTm sh.resource.task_manager
    let st2 := st1.setTm sh.resource.task_manager
      { lc with migrated_tid := migrated_tid }
    schedule sh.resource.task_manager st2
  else
    schedule sh.resource.task_manager st

/-- system::shared::SharedResource<T> (src/system/shared.rs lines 102-136).
The AtomicBool and RefCell fields are the cross-core cells. -/
structure SharedResource (T : Type) where
  val : T
  tasks_mask0 : Nat
  tasks_mask1 : Nat
  lock : Bool
  curr_tid : Nat
deriving Repr

/-- SharedResource::new. -/
def SharedResource.new (T : Type) (val : T) (tasks_mask0 : Nat)
    (tasks_mask1 : Nat) : SharedResource T :=
  { val := val, tasks_mask0 := tasks_mask0, tasks_mask1 := tasks_mask1
    lock := false, curr_tid := 0 }

/-- SharedResource::core0 (src/system/shared.rs lines 117-125): a view over
TaskManager and PiStackGlobal with mask tasks_mask0, spinning against
tasks_mask1 on TaskManager_C1. -/
def SharedResource.core0 {T : Type} (sr : SharedResource T) : Shared T :=
  { resource := Resource.new T TmRef.taskManager PiRef.piStackGlobal
      sr.val sr.tasks_mask0
    other_resource_taskmask := sr.tasks_mask1
    other_core_task_manager := TmRef.taskManagerC1 }

/-- SharedResource::core1 (src/system/shared.rs lines 127-135): a view over
TaskManager_C1 and PiStackGlobal_C1 with mask tasks_mask1.  The source
passes tasks_mask1 again as the peer mask, paired with TaskManager. -/
def SharedResource.core1 {T : Type} (sr : SharedResource T) : Shared T :=
  { resource := Resource.new T TmRef.taskManagerC1 PiRef.piStackGlobalC1
      sr.val sr.tasks_mask1
    other_resource_taskmask := sr.tasks_mask1
    other_core_task_manager := TmRef.taskManager }

/-- A call to disable_preemption or enable_preemption. -/
inductive PreemptOp where
  | dis
  | en
deriving DecidableEq, Repr

/-- Apply one preemption call to the kernel state. -/
def applyPreemptOp (task_manager : TmRef) (st : KernelState) :
    PreemptOp → KernelState
  | PreemptOp.dis => disable_preemption task_manager st
  | PreemptOp.en => enable_preemption task_manager st

/-- Apply a sequence of preemption calls, left to right. -/
def applyPreemptOps (task_manager : TmRef) (st : KernelState) :
    List PreemptOp → KernelState
  | [] => st
  | op :: rest =>
      applyPreemptOps task_manager (applyPreemptOp task_manager st op) rest

/-- A sequence of preemption calls is balanced from nesting depth d when
every enable is preceded by a matching disable (every prefix keeps the
depth nonnegative).  Balanced from depth 0 with final depth arbitrary
covers every prefix of a fully balanced sequence. -/
def BalancedFrom : Nat → List PreemptOp → Prop
  | _, [] => True
  | d, PreemptOp.dis :: rest => BalancedFrom (d + 1) rest
  | d, PreemptOp.en :: rest => 0 < d ∧ BalancedFrom (d - 1) rest

instance : ∀ d ops, Decidable (BalancedFrom d ops) := by
  intro d ops
  induction ops generalizing d with
  | nil => exact isTrue trivial
  | cons op rest ih =>
      cases op with
      | dis => exact ih (d + 1)
      | en =>
          exact @instDecidableAnd _ _ (Nat.decLt 0 d) (ih (d - 1))

/-- The preemption invariant holds after every call of the sequence:
running the calls one at a time from st, after each call is_preemptive is
true exactly when preempt_disable_count is 0. -/
def PreemptInvAlong (task_manager : TmRef) (st : KernelState) :
    List PreemptOp → Prop
  | [] => True
  | op :: rest =>
      let st1 := applyPreemptOp task_manager st op
      ((st1.getTm task_manager).is_preemptive = true ↔
        (st1.getTm task_manager).preempt_disable_count = 0) ∧
      PreemptInvAlong task_manager st1 rest

instance : ∀ tm st ops, Decidable (PreemptInvAlong tm st ops) := by
  intro tm st ops
  induction ops generalizing st with
  | nil => exact isTrue trivial
  | cons op rest ih =>
      exact @instDecidableAnd _ _ inferInstance (ih (applyPreemptOp tm st op))

/-! ### Component lemmas for the kernel state -/

@[simp]
theorem KernelState.getTm_setTm_self (st : KernelState) (tm : TmRef)
    (s : Scheduler) : (st.setTm tm s).getTm tm = s := by
  cases tm <;> rfl

@[simp]
theorem KernelState.getPi_setTm (st : KernelState) (tm : TmRef) (s : Scheduler)
    (p : PiRef) : (st.setTm tm s).getPi p = st.getPi p := by
  cases tm <;> cases p <;> rfl

@[simp]
theorem KernelState.getTm_setPi (st : KernelState) (p : PiRef) (x : PiStack)
    (tm : TmRef) : (st.setPi p x).getTm tm = st.getTm tm := by
  cases tm <;> cases p <;> rfl

@[simp]
theorem KernelState.getPi_setPi_self (st : KernelState) (p : PiRef)
    (x : PiStack) : (st.setPi p x).getPi p = x := by
  cases p <;> rfl

@[simp]
theorem KernelState.getPi_global (st : KernelState) :
    st.getPi PiRef.piStackGlobal = st.pi0 := rfl

@[simp]
theorem KernelState.getPi_c1 (st : KernelState) :
    st.getPi PiRef.piStackGlobalC1 = st.pi1 := rfl

@[simp]
theorem KernelState.setTm_pi0 (st : KernelState) (tm : TmRef) (s : Scheduler) :
    (st.setTm tm s).pi0 = st.pi0 := by
  cases tm <;> rfl

@[simp]
theorem KernelState.setTm_pi1 (st : KernelState) (tm : TmRef) (s : Scheduler) :
    (st.setTm tm s).pi1 = st.pi1 := by
  cases tm <;> rfl

@[simp]
theorem KernelState.setPi_global_pi0 (st : KernelState) (x : PiStack) :
    (st.setPi PiRef.piStackGlobal x).pi0 = x := rfl

@[simp]
theorem KernelState.setPi_global_pi1 (st : KernelState) (x : PiStack) :
    (st.setPi PiRef.piStackGlobal x).pi1 = st.pi1 := rfl

@[simp]
theorem KernelState.setPi_c1_pi0 (st : KernelState) (x : PiStack) :
    (st.setPi PiRef.piStackGlobalC1 x).pi0 = st.pi0 := rfl

@[simp]
theorem KernelState.setPi_c1_pi1 (st : KernelState) (x : PiStack) :
    (st.setPi PiRef.piStackGlobalC1 x).pi1 = x := rfl

@[simp]
theorem schedule_eq (tm : TmRef) (st : KernelState) : schedule tm st = st := rfl

/-! ### Bit-vector helper lemmas -/

theorem compl32_testBit (x i : Nat) (hi : i < 32) :
    (compl32 x).testBit i = !(x.testBit i) := by
  have h32 : (0xffffffff : Nat) = 2 ^ 32 - 1 := by norm_num
  rw [compl32, h32, Nat.testBit_xor, Nat.testBit_two_pow_sub_one,
    Nat.testBit_mod_two_pow]
  simp [hi]

theorem compl32_testBit_ge (x i : Nat) (hi : 32 ≤ i) :
    (compl32 x).testBit i = false := by
  have h32 : (0xffffffff : Nat) = 2 ^ 32 - 1 := by norm_num
  have hni : ¬ i < 32 := Nat.not_lt.mpr hi
  rw [compl32, h32, Nat.testBit_xor, Nat.testBit_two_pow_sub_one,
    Nat.testBit_mod_two_pow]
  simp [hni]

theorem testBit_eq_false_of_lt_two_pow_32 (x i : Nat) (hx : x < 2 ^ 32)
    (hi : 32 ≤ i) : x.testBit i = false :=
  Nat.testBit_lt_two_pow
    (Nat.lt_of_lt_of_le hx (Nat.pow_le_pow_right (by norm_num) hi))

theorem and_shiftLeft_eq_iff (x t : Nat) :
    x &&& (1 <<< t) = (1 <<< t) ↔ x.testBit t = true := by
  rw [Nat.one_shiftLeft]
  constructor
  · intro h
    have h1 := congrArg (fun y => Nat.testBit y t) h
    simpa [Nat.testBit_and, Nat.testBit_two_pow_self] using h1
  · intro h
    apply Nat.eq_of_testBit_eq
    intro j
    rcases eq_or_ne t j with hj | hj
    · subst hj
      simp [Nat.testBit_and, Nat.testBit_two_pow_self, h]
    · simp [Nat.testBit_and, Nat.testBit_two_pow_of_ne hj]

/-- The key bit identity behind the lock/unlock blocking round trip:
blocking tasks_mask & !(1 << tid) and then clearing
tasks_mask & !old_blocked restores the old blocked bitmap. -/
theorem blocked_roundtrip (O M t : Nat) (hO : O < 2 ^ 32) :
    (O ||| (compl32 t &&& M)) &&& compl32 (M &&& compl32 O) = O := by
  apply Nat.eq_of_testBit_eq
  intro i
  rcases Nat.lt_or_ge i 32 with hi | hi
  · simp only [Nat.testBit_and, Nat.testBit_or, compl32_testBit _ _ hi]
    cases O.testBit i <;> cases M.testBit i <;> cases t.testBit i <;> simp
  · simp [Nat.testBit_and, Nat.testBit_or, compl32_testBit_ge _ _ hi,
      testBit_eq_false_of_lt_two_pow_32 O i hO hi]

/-! ### Lock and unlock characterizations -/

/-- Successful Resource::lock: when the current task is in the mask, the
stack has room, and the resource ceiling exceeds the system ceiling, lock
pushes the old system ceiling, raises the system ceiling to the resource
ceiling, remembers tasks_mask & !blocked_tasks, blocks
tasks_mask & !(1 << curr_tid), and returns the payload. -/
theorem lock_success {T : Type} (r : Resource T) (st : KernelState)
    (htid : r.tasks_mask &&& (1 <<< get_curr_tid r.task_manager st) =
      (1 <<< get_curr_tid r.task_manager st))
    (htop : (st.getPi r.pi_stack).top < MAX_RESOURCES)
    (hceil : (r.ceiling : Int) > (st.getPi r.pi_stack).system_ceiling) :
    r.lock st =
      (Except.ok r.inner,
       { r with blocked_mask :=
           r.tasks_mask &&& compl32 (st.getTm r.task_manager).blocked_tasks },
       block_tasks r.task_manager
         (compl32 (1 <<< get_curr_tid r.task_manager st) &&& r.tasks_mask)
         (st.setPi r.pi_stack
           { pi_stack := (st.getPi r.pi_stack).pi_stack.set!
               (st.getPi r.pi_stack).top (st.getPi r.pi_stack).system_ceiling
             top := (st.getPi r.pi_stack).top + 1
             system_ceiling := Int.ofNat r.ceiling })) := by
  unfold Resource.lock
  rw [if_neg (fun h => h htid), if_pos hceil]
  unfold PiStack.push_stack
  rw [if_neg (Nat.not_le.mpr htop)]
  simp only [KernelState.getTm_setPi]

/-- Resource::lock fails with AccessDenied and no state change when the
resource ceiling does not exceed the system ceiling. -/
theorem lock_denied_ceiling {T : Type} (r : Resource T) (st : KernelState)
    (hle : (r.ceiling : Int) ≤ (st.getPi r.pi_stack).system_ceiling) :
    r.lock st = (Except.error KernelError.AccessDenied, r, st) := by
  simp only [Resource.lock]
  split
  · rfl
  · rw [if_neg (not_lt.mpr hle)]

/-- Resource::lock fails with AccessDenied and no state change when the
current task's bit is not in the resource mask. -/
theorem lock_denied_mask {T : Type} (r : Resource T) (st : KernelState)
    (htid : r.tasks_mask.testBit (get_curr_tid r.task_manager st) = false) :
    r.lock st = (Except.error KernelError.AccessDenied, r, st) := by
  have hne : r.tasks_mask &&& (1 <<< get_curr_tid r.task_manager st) ≠
      (1 <<< get_curr_tid r.task_manager st) := by
    intro h
    rw [and_shiftLeft_eq_iff] at h
    rw [h] at htid
    cases htid
  unfold Resource.lock
  rw [if_pos hne]

/-- Resource::unlock in the matching-ceiling case: pop the global PiStack
and unblock blocked_mask. -/
theorem unlock_pop {T : Type} (r : Resource T) (st : KernelState)
    (hceil : (r.ceiling : Int) = st.pi0.system_ceiling)
    (htop : st.pi0.top ≠ 0) :
    r.unlock st =
      (Except.ok (),
       unblock_tasks r.task_manager r.blocked_mask
         (st.setPi PiRef.piStackGlobal
           { st.pi0 with
             system_ceiling := st.pi0.pi_stack.get! (st.pi0.top - 1)
             top := st.pi0.top - 1 })) := by
  simp only [Resource.unlock, KernelState.getPi_global]
  rw [if_pos hceil]
  unfold PiStack.pop_stack
  rw [if_neg htop]
  rfl

/-- Resource::unlock in the non-matching case: nothing happens and the
result is Ok. -/
theorem unlock_noop {T : Type} (r : Resource T) (st : KernelState)
    (hne : (r.ceiling : Int) ≠ st.pi0.system_ceiling) :
    r.unlock st = (Except.ok (), st) := by
  simp only [Resource.unlock, KernelState.getPi_global]
  rw [if_neg hne]

/-! ### Concrete states used by witnesses and counterexamples -/

/-- Fresh kernel globals, as before start_kernel. -/
def initState : KernelState :=
  { tm0 := Scheduler.new, tm1 := Scheduler.new
    pi0 := PiStack.new, pi1 := PiStack.new }

/-- Kernel state in which core 0 currently runs task 1. -/
def stW1 : KernelState :=
  { initState with tm0 := { Scheduler.new with curr_tid := 1 } }

/-- Kernel state in which core 0 currently runs task 2. -/
def stW2 : KernelState :=
  { initState with tm0 := { Scheduler.new with curr_tid := 2 } }

/-- Like stW1 but with an elevated system ceiling on core 0. -/
def stHighCeil : KernelState :=
  { stW1 with pi0 := { PiStack.new with system_ceiling := 5 } }

/-- A resource over TaskManager and PiStackGlobal open to tasks 1 and 3
(mask 0b1010, stored as 0b1011 with ceiling 3). -/
def rW : Resource Unit :=
  Resource.new Unit TmRef.taskManager PiRef.piStackGlobal () 10

/-- A resource open to tasks 1 and 2 (mask 0b0110, stored 0b0111,
ceiling 2). -/
def rC4 : Resource Unit :=
  Resource.new Unit TmRef.taskManager PiRef.piStackGlobal () 6

/-- A full priority-ceiling stack (top at capacity). -/
def pFull : PiStack :=
  { pi_stack := Array.mkArray MAX_RESOURCES 0, top := MAX_RESOURCES
    system_ceiling := 3 }

/-! ### Claim theorems -/

/-- C1: Resource lock algorithm.  If the current task is in R.tasks_mask
and R.ceiling strictly exceeds the current system ceiling (and the ceiling
stack has room for the push), lock pushes the old system ceiling, sets
system_ceiling = R.ceiling, blocks exactly the tasks of R.tasks_mask other
than the current one, and returns the payload; if R.ceiling does not exceed
the system ceiling, it fails with AccessDenied and changes nothing. -/
theorem resource_lock_algorithm {T : Type} (r : Resource T) (st : KernelState) :
    (r.tasks_mask.testBit (get_curr_tid r.task_manager st) = true →
      (st.getPi r.pi_stack).top < MAX_RESOURCES →
      (r.ceiling : Int) > (st.getPi r.pi_stack).system_ceiling →
      r.lock st =
        (Except.ok r.inner,
         { r with blocked_mask :=
             r.tasks_mask &&& compl32 (st.getTm r.task_manager).blocked_tasks },
         block_tasks r.task_manager
           (compl32 (1 <<< get_curr_tid r.task_manager st) &&& r.tasks_mask)
           (st.setPi r.pi_stack
             { pi_stack := (st.getPi r.pi_stack).pi_stack.set!
                 (st.getPi r.pi_stack).top (st.getPi r.pi_stack).system_ceiling
               top := (st.getPi r.pi_stack).top + 1
               system_ceiling := Int.ofNat r.ceiling }))) ∧
    ((r.ceiling : Int) ≤ (st.getPi r.pi_stack).system_ceiling →
      r.lock st = (Except.error KernelError.AccessDenied, r, st)) :=
  ⟨fun h1 h2 h3 => lock_success r st ((and_shiftLeft_eq_iff _ _).mpr h1) h2 h3,
   fun h => lock_denied_ceiling r st h⟩

theorem resource_lock_algorithm_witness :
    rW.lock stW1 =
      (Except.ok rW.inner,
       { rW with blocked_mask :=
           rW.tasks_mask &&& compl32 (stW1.getTm rW.task_manager).blocked_tasks },
       block_tasks rW.task_manager
         (compl32 (1 <<< get_curr_tid rW.task_manager stW1) &&& rW.tasks_mask)
         (stW1.setPi rW.pi_stack
           { pi_stack := (stW1.getPi rW.pi_stack).pi_stack.set!
               (stW1.getPi rW.pi_stack).top
               (stW1.getPi rW.pi_stack).system_ceiling
             top := (stW1.getPi rW.pi_stack).top + 1
             system_ceiling := Int.ofNat rW.ceiling })) ∧
    rW.lock stHighCeil = (Except.error KernelError.AccessDenied, rW, stHighCeil) :=
  ⟨(resource_lock_algorithm rW stW1).1 (by decide) (by decide) (by decide),
   (resource_lock_algorithm rW stHighCeil).2 (by decide)⟩

/-- C3: a task outside R.tasks_mask gets AccessDenied from acquire (hence
from lock), the handler is never invoked (invocation count 0), and the
kernel state is returned unchanged. -/
theorem acquire_denied_outside_mask {T R : Type} (r : Resource T)
    (handler : T → R) (st : KernelState)
    (htid : r.tasks_mask.testBit (get_curr_tid r.task_manager st) = false) :
    r.acquire handler st = (Except.error KernelError.AccessDenied, r, st, 0) ∧
    r.lock st = (Except.error KernelError.AccessDenied, r, st) := by
  have hl := lock_denied_mask r st htid
  refine ⟨?_, hl⟩
  unfold Resource.acquire
  rw [hl]

theorem acquire_denied_outside_mask_witness :
    rW.acquire (fun _ => (0 : Nat)) stW2 =
      (Except.error KernelError.AccessDenied, rW, stW2, 0) ∧
    rW.lock stW2 = (Except.error KernelError.AccessDenied, rW, stW2) :=
  acquire_denied_outside_mask rW (fun _ => (0 : Nat)) stW2 (by decide)

/-- C4 counterexample: with ceiling 2 and system ceiling -1 (not locked,
hence not matching), unlock returns Ok and not the NotLocked error the
claim requires, while leaving the state unchanged. -/
theorem unlock_nonmatching_counterexample :
    (rC4.unlock initState).1 = Except.ok () ∧
    (rC4.unlock initState).1 ≠ Except.error KernelError.NotLocked ∧
    (rC4.unlock initState).2 = initState := by
  refine ⟨rfl, ?_, rfl⟩
  intro h
  rw [show (rC4.unlock initState).1 = Except.ok () from rfl] at h
  cases h

/-- C4 amended: calling unlock when R.ceiling differs from the current
system ceiling leaves the PiStack and the blocked bitmap (the whole kernel
state) unchanged and returns Ok(()). -/
theorem unlock_nonmatching_is_noop {T : Type} (r : Resource T)
    (st : KernelState)
    (hne : (r.ceiling : Int) ≠ st.pi0.system_ceiling) :
    r.unlock st = (Except.ok (), st) :=
  unlock_noop r st hne

theorem unlock_nonmatching_is_noop_witness :
    rC4.unlock initState = (Except.ok (), initState) :=
  unlock_nonmatching_is_noop rC4 initState (by decide)

/-- C8: pushing onto a full PiStack fails with LimitExceeded leaving the
stack unchanged; popping an empty PiStack fails with the underflow error
leaving the stack unchanged; and neither operation changes the backing
array size (no out-of-bounds growth or write). -/
theorem pi_stack_capacity_errors (p : PiStack) (ceiling : Nat) :
    (p.top = MAX_RESOURCES →
      p.push_stack ceiling = (Except.error KernelError.LimitExceeded, p)) ∧
    (p.top = 0 → p.pop_stack = (Except.error KernelError.Underflow, p)) ∧
    (p.push_stack ceiling).2.pi_stack.size = p.pi_stack.size ∧
    p.pop_stack.2.pi_stack.size = p.pi_stack.size := by
  refine ⟨?_, ?_, ?_, ?_⟩
  · intro h
    unfold PiStack.push_stack
    rw [if_pos (Nat.le_of_eq h.symm)]
  · intro h
    unfold PiStack.pop_stack
    rw [if_pos h]
  · unfold PiStack.push_stack
    split
    · rfl
    · simp [Array.size_set!]
  · unfold PiStack.pop_stack
    split
    · rfl
    · rfl

theorem pi_stack_capacity_errors_witness :
    pFull.push_stack 5 = (Except.error KernelError.LimitExceeded, pFull) ∧
    PiStack.new.pop_stack = (Except.error KernelError.Underflow, PiStack.new) :=
  ⟨(pi_stack_capacity_errors pFull 5).1 rfl,
   (pi_stack_capacity_errors PiStack.new 0).2.1 rfl⟩

/-- C10: enable_preemption decrements the u32 counter unconditionally:
when the counter is positive the decrement cannot underflow (it yields
count - 1), and when it is already 0 the counter wraps around to
2^32 - 1. -/
theorem enable_preemption_underflow (tm : TmRef) (st : KernelState)
    (hlt : (st.getTm tm).preempt_disable_count < 2 ^ 32) :
    (0 < (st.getTm tm).preempt_disable_count →
      ((enable_preemption tm st).getTm tm).preempt_disable_count =
        (st.getTm tm).preempt_disable_count - 1) ∧
    ((st.getTm tm).preempt_disable_count = 0 →
      ((enable_preemption tm st).getTm tm).preempt_disable_count =
        2 ^ 32 - 1) := by
  have hc : ((enable_preemption tm st).getTm tm).preempt_disable_count =
      ((st.getTm tm).preempt_disable_count + (2 ^ 32 - 1)) % 2 ^ 32 := by
    unfold enable_preemption
    simp only [KernelState.getTm_setTm_self]
    split <;> rfl
  have h32 : (2 : Nat) ^ 32 = 4294967296 := by norm_num
  rw [h32] at hc hlt ⊢
  constructor <;> intro h <;> omega

/-- Kernel state with two pending preemption disables on core 0. -/
def stPd2 : KernelState :=
  { initState with tm0 := { Scheduler.new with preempt_disable_count := 2 } }

theorem enable_preemption_underflow_witness :
    ((enable_preemption TmRef.taskManager initState).getTm
        TmRef.taskManager).preempt_disable_count = 2 ^ 32 - 1 ∧
    ((enable_preemption TmRef.taskManager stPd2).getTm
        TmRef.taskManager).preempt_disable_count = 1 :=
  ⟨(enable_preemption_underflow TmRef.taskManager initState (by decide)).2 rfl,
   (enable_preemption_underflow TmRef.taskManager stPd2 (by decide)).1
     (by decide)⟩

@[simp]
theorem getTm_block_tasks (tm : TmRef) (m : Nat) (st : KernelState) :
    (block_tasks tm m st).getTm tm = (st.getTm tm).block_tasks m := by
  simp [block_tasks]

@[simp]
theorem getTm_unblock_tasks (tm : TmRef) (m : Nat) (st : KernelState) :
    (unblock_tasks tm m st).getTm tm = (st.getTm tm).unblock_tasks m := by
  simp [unblock_tasks]

@[simp]
theorem block_tasks_pi0 (tm : TmRef) (m : Nat) (st : KernelState) :
    (block_tasks tm m st).pi0 = st.pi0 := by
  simp [block_tasks]

@[simp]
theorem blocked_tasks_block (s : Scheduler) (m : Nat) :
    (s.block_tasks m).blocked_tasks = s.blocked_tasks ||| m := rfl

@[simp]
theorem blocked_tasks_unblock (s : Scheduler) (m : Nat) :
    (s.unblock_tasks m).blocked_tasks = s.blocked_tasks &&& compl32 m := rfl

/-- C2: for a matching lock/unlock pair on a resource over the global
PiStack, the set of tasks newly blocked by the successful lock equals the
set of tasks the corresponding unlock unblocks, and the blocked bitmap is
restored exactly. -/
theorem lock_unlock_blocked_sets_match {T : Type} (r : Resource T)
    (st : KernelState)
    (hpi : r.pi_stack = PiRef.piStackGlobal)
    (htid : r.tasks_mask.testBit (get_curr_tid r.task_manager st) = true)
    (htop : (st.getPi r.pi_stack).top < MAX_RESOURCES)
    (hceil : (r.ceiling : Int) > (st.getPi r.pi_stack).system_ceiling)
    (hO : (st.getTm r.task_manager).blocked_tasks < 2 ^ 32) :
    ((r.lock st).2.2.getTm r.task_manager).blocked_tasks &&&
        compl32 (st.getTm r.task_manager).blocked_tasks =
      ((r.lock st).2.2.getTm r.task_manager).blocked_tasks &&&
        compl32
          ((((r.lock st).2.1.unlock (r.lock st).2.2).2.getTm
              r.task_manager).blocked_tasks) ∧
    (((r.lock st).2.1.unlock (r.lock st).2.2).2.getTm
        r.task_manager).blocked_tasks =
      (st.getTm r.task_manager).blocked_tasks := by
  have htid' := (and_shiftLeft_eq_iff r.tasks_mask
    (get_curr_tid r.task_manager st)).mpr htid
  have hls := lock_success r st htid' htop hceil
  rw [hpi] at hls
  rw [hls]
  dsimp only
  rw [unlock_pop
    (⟨r.ceiling, r.tasks_mask,
      r.tasks_mask &&& compl32 (st.getTm r.task_manager).blocked_tasks,
      r.inner, r.task_manager, PiRef.piStackGlobal⟩ : Resource T)
    (block_tasks r.task_manager
      (compl32 (1 <<< get_curr_tid r.task_manager st) &&& r.tasks_mask)
      (st.setPi PiRef.piStackGlobal
        { pi_stack := (st.getPi PiRef.piStackGlobal).pi_stack.set!
            (st.getPi PiRef.piStackGlobal).top
            (st.getPi PiRef.piStackGlobal).system_ceiling
          top := (st.getPi PiRef.piStackGlobal).top + 1
          system_ceiling := Int.ofNat r.ceiling }))
    (by simp) (by simp)]
  simp only [getTm_block_tasks, getTm_unblock_tasks, KernelState.getTm_setPi,
    blocked_tasks_block, blocked_tasks_unblock]
  have hrt := blocked_roundtrip (st.getTm r.task_manager).blocked_tasks
    r.tasks_mask (1 <<< get_curr_tid r.task_manager st) hO
  exact ⟨by rw [hrt], hrt⟩

theorem lock_unlock_blocked_sets_match_witness :
    ((rW.lock stW1).2.2.getTm rW.task_manager).blocked_tasks &&&
        compl32 (stW1.getTm rW.task_manager).blocked_tasks =
      ((rW.lock stW1).2.2.getTm rW.task_manager).blocked_tasks &&&
        compl32
          ((((rW.lock stW1).2.1.unlock (rW.lock stW1).2.2).2.getTm
              rW.task_manager).blocked_tasks) ∧
    (((rW.lock stW1).2.1.unlock (rW.lock stW1).2.2).2.getTm
        rW.task_manager).blocked_tasks =
      (stW1.getTm rW.task_manager).blocked_tasks :=
  lock_unlock_blocked_sets_match rW stW1 rfl (by decide) (by decide)
    (by decide) (by decide)

/-! ### Preemption-counter lemmas -/

theorem disable_preemption_getTm (tm : TmRef) (st : KernelState) :
    (disable_preemption tm st).getTm tm =
      { st.getTm tm with
        preempt_disable_count :=
          ((st.getTm tm).preempt_disable_count + 1) % 2 ^ 32
        is_preemptive := false } := by
  unfold disable_preemption
  rw [KernelState.getTm_setTm_self]

theorem enable_preemption_count (tm : TmRef) (st : KernelState) :
    ((enable_preemption tm st).getTm tm).preempt_disable_count =
      ((st.getTm tm).preempt_disable_count + (2 ^ 32 - 1)) % 2 ^ 32 := by
  unfold enable_preemption
  rw [KernelState.getTm_setTm_self]
  split <;> rfl

theorem enable_preemption_flag (tm : TmRef) (st : KernelState) :
    ((enable_preemption tm st).getTm tm).is_preemptive =
      (if ((st.getTm tm).preempt_disable_count + (2 ^ 32 - 1)) % 2 ^ 32 = 0
       then true else (st.getTm tm).is_preemptive) := by
  unfold enable_preemption
  rw [KernelState.getTm_setTm_self]
  split <;> rfl

@[simp]
theorem applyPreemptOp_dis (tm : TmRef) (st : KernelState) :
    applyPreemptOp tm st PreemptOp.dis = disable_preemption tm st := rfl

@[simp]
theorem applyPreemptOp_en (tm : TmRef) (st : KernelState) :
    applyPreemptOp tm st PreemptOp.en = enable_preemption tm st := rfl

theorem preempt_inv_aux (tm : TmRef) :
    ∀ (ops : List PreemptOp) (d : Nat) (st : KernelState),
      BalancedFrom d ops →
      (st.getTm tm).preempt_disable_count = d →
      ((st.getTm tm).is_preemptive = true ↔ d = 0) →
      d + ops.length < 2 ^ 32 →
      PreemptInvAlong tm st ops := by
  intro ops
  induction ops with
  | nil =>
      intro d st _ _ _ _
      exact trivial
  | cons op rest ih =>
      intro d st hb hc hi hlen
      have h32 : (2 : Nat) ^ 32 = 4294967296 := by norm_num
      cases op with
      | dis =>
          have hc1 : ((disable_preemption tm st).getTm tm).preempt_disable_count
              = d + 1 := by
            rw [disable_preemption_getTm]
            dsimp only
            rw [hc]
            rw [h32]
            rw [h32] at hlen
            simp only [List.length_cons] at hlen
            omega
          have hf1 : ((disable_preemption tm st).getTm tm).is_preemptive
              = false := by
            rw [disable_preemption_getTm]
          refine ⟨?_, ?_⟩
          · simp only [applyPreemptOp_dis]
            rw [hf1, hc1]
            simp
          · refine ih (d + 1) (disable_preemption tm st) hb hc1 ?_ ?_
            · rw [hf1]
              simp
            · simp only [List.length_cons] at hlen
              omega
      | en =>
          obtain ⟨hd, hb1⟩ := hb
          have hc1 : ((enable_preemption tm st).getTm tm).preempt_disable_count
              = d - 1 := by
            rw [enable_preemption_count, hc]
            rw [h32]
            rw [h32] at hlen
            omega
          have hf1 : ((enable_preemption tm st).getTm tm).is_preemptive = true ↔
              d - 1 = 0 := by
            rw [enable_preemption_flag, enable_preemption_count] at *
            rw [hc]
            rw [h32]
            rw [h32] at hlen
            rcases eq_or_ne d 1 with h1 | h1
            · subst h1
              norm_num
            · have hone : ¬ (d + (4294967296 - 1)) % 4294967296 = 0 := by omega
              rw [if_neg hone]
              constructor
              · intro h
                exact absurd (hi.mp h) (by omega)
              · intro h
                omega
          refine ⟨?_, ?_⟩
          · simp only [applyPreemptOp_en]
            rw [hc1]
            exact hf1
          · refine ih (d - 1) (enable_preemption tm st) hb1 hc1 hf1 ?_
            simp only [List.length_cons] at hlen
            omega

/-- C6 amended: starting from preempt_disable_count 0, after any balanced
sequence of fewer than 2^32 preemption calls the invariant
is_preemptive = (preempt_disable_count == 0) holds after every call. -/
theorem preempt_invariant_balanced (tm : TmRef) (st : KernelState)
    (ops : List PreemptOp)
    (hc : (st.getTm tm).preempt_disable_count = 0)
    (hb : BalancedFrom 0 ops)
    (hlen : ops.length < 2 ^ 32) :
    PreemptInvAlong tm st ops := by
  cases ops with
  | nil => exact trivial
  | cons op rest =>
      cases op with
      | en => exact absurd hb.1 (by omega)
      | dis =>
          have h32 : (2 : Nat) ^ 32 = 4294967296 := by norm_num
          have hc1 : ((disable_preemption tm st).getTm
              tm).preempt_disable_count = 1 := by
            rw [disable_preemption_getTm]
            dsimp only
            rw [hc]
            norm_num
          have hf1 : ((disable_preemption tm st).getTm tm).is_preemptive
              = false := by
            rw [disable_preemption_getTm]
          refine ⟨?_, ?_⟩
          · simp only [applyPreemptOp_dis]
            rw [hf1, hc1]
            simp
          · refine preempt_inv_aux tm rest 1 (disable_preemption tm st) hb hc1
              (by rw [hf1]; simp) ?_
            simp only [List.length_cons] at hlen
            omega

theorem balancedFrom_replicate_dis (n : Nat) :
    ∀ (d : Nat) (rest : List PreemptOp), BalancedFrom (d + n) rest →
      BalancedFrom d (List.replicate n PreemptOp.dis ++ rest) := by
  induction n with
  | zero =>
      intro d rest h
      simpa using h
  | succ m ih =>
      intro d rest h
      rw [List.replicate_succ]
      have h2 : BalancedFrom (d + 1 + m) rest := by
        rw [show d + 1 + m = d + (m + 1) from by omega]
        exact h
      exact ih (d + 1) rest h2

theorem balancedFrom_replicate_en (n : Nat) :
    ∀ d : Nat, n ≤ d → BalancedFrom d (List.replicate n PreemptOp.en) := by
  induction n with
  | zero =>
      intro d _
      exact trivial
  | succ m ih =>
      intro d hd
      rw [List.replicate_succ]
      exact ⟨by omega, ih (d - 1) (by omega)⟩

theorem invAlong_append (tm : TmRef) (xs ys : List PreemptOp) :
    ∀ st : KernelState, PreemptInvAlong tm st (xs ++ ys) →
      PreemptInvAlong tm st xs := by
  induction xs with
  | nil =>
      intro st _
      exact trivial
  | cons op rest ih =>
      intro st h
      exact ⟨h.1, ih _ h.2⟩

theorem invAlong_last (tm : TmRef) :
    ∀ (ops : List PreemptOp) (st : KernelState), ops ≠ [] →
      PreemptInvAlong tm st ops →
      (((applyPreemptOps tm st ops).getTm tm).is_preemptive = true ↔
        ((applyPreemptOps tm st ops).getTm tm).preempt_disable_count = 0) := by
  intro ops
  induction ops with
  | nil =>
      intro st h _
      exact absurd rfl h
  | cons op rest ih =>
      intro st _ h
      cases rest with
      | nil => exact h.1
      | cons op2 rest2 =>
          exact ih (applyPreemptOp tm st op) (by simp) h.2

theorem count_after_replicate_dis (tm : TmRef) :
    ∀ (n : Nat) (st : KernelState),
      (st.getTm tm).preempt_disable_count < 2 ^ 32 →
      ((applyPreemptOps tm st (List.replicate n PreemptOp.dis)).getTm
          tm).preempt_disable_count =
        ((st.getTm tm).preempt_disable_count + n) % 2 ^ 32 := by
  intro n
  have h32 : (2 : Nat) ^ 32 = 4294967296 := by norm_num
  induction n with
  | zero =>
      intro st hlt
      rw [h32] at hlt ⊢
      simp [applyPreemptOps, Nat.mod_eq_of_lt hlt]
  | succ m ih =>
      intro st hlt
      rw [List.replicate_succ]
      have hstep := ih (disable_preemption tm st) (by
        rw [disable_preemption_getTm]
        dsimp only
        rw [h32]
        exact Nat.mod_lt _ (by norm_num))
      simp only [applyPreemptOps, applyPreemptOp_dis] at hstep ⊢
      rw [hstep, disable_preemption_getTm]
      dsimp only
      rw [h32] at hlt ⊢
      omega

theorem flag_after_replicate_dis (tm : TmRef) :
    ∀ (n : Nat) (st : KernelState),
      ((applyPreemptOps tm st
          (List.replicate (n + 1) PreemptOp.dis)).getTm tm).is_preemptive =
        false := by
  intro n
  induction n with
  | zero =>
      intro st
      simp only [List.replicate_succ, List.replicate_zero, applyPreemptOps,
        applyPreemptOp_dis]
      rw [disable_preemption_getTm]
  | succ m ih =>
      intro st
      rw [List.replicate_succ]
      simp only [applyPreemptOps, applyPreemptOp_dis]
      exact ih (disable_preemption tm st)

theorem preempt_invariant_balanced_witness :
    PreemptInvAlong TmRef.taskManager initState
      [PreemptOp.dis, PreemptOp.dis, PreemptOp.en, PreemptOp.en] ∧
    ((applyPreemptOps TmRef.taskManager initState
        [PreemptOp.dis, PreemptOp.dis, PreemptOp.en]).getTm
        TmRef.taskManager).is_preemptive = false ∧
    ((applyPreemptOps TmRef.taskManager initState
        [PreemptOp.dis, PreemptOp.dis, PreemptOp.en, PreemptOp.en]).getTm
        TmRef.taskManager).is_preemptive = true :=
  ⟨preempt_invariant_balanced TmRef.taskManager initState
      [PreemptOp.dis, PreemptOp.dis, PreemptOp.en, PreemptOp.en]
      (by decide) (by decide) (by decide),
   by decide, by decide⟩

attribute [irreducible] BalancedFrom PreemptInvAlong

/-- The balanced call sequence of 2^32 disables followed by 2^32 enables. -/
def overflowSeq : List PreemptOp :=
  List.replicate (2 ^ 32) PreemptOp.dis ++ List.replicate (2 ^ 32) PreemptOp.en

/-- C6 counterexample: overflowSeq is a balanced sequence of preemption
calls starting from count 0, yet the invariant fails after its 2^32-th
call, where the u32 counter has wrapped back to 0 while is_preemptive is
still false. -/
theorem preempt_invariant_counterexample :
    BalancedFrom 0 overflowSeq ∧
    ¬ PreemptInvAlong TmRef.taskManager initState overflowSeq := by
  constructor
  · exact balancedFrom_replicate_dis (2 ^ 32) 0 _
      (balancedFrom_replicate_en (2 ^ 32) (0 + 2 ^ 32) (by norm_num))
  · intro h
    have hne : List.replicate (2 ^ 32) PreemptOp.dis ≠ [] := by
      intro hnil
      have hlen := congrArg List.length hnil
      rw [List.length_replicate, List.length_nil] at hlen
      norm_num at hlen
    have h1 := invAlong_append TmRef.taskManager _ _ initState h
    have h2 := invAlong_last TmRef.taskManager
      (List.replicate (2 ^ 32) PreemptOp.dis) initState hne h1
    have hcount := count_after_replicate_dis TmRef.taskManager (2 ^ 32)
      initState (show (0 : Nat) < 2 ^ 32 by norm_num)
    have hflag : ((applyPreemptOps TmRef.taskManager initState
        (List.replicate (2 ^ 32) PreemptOp.dis)).getTm
          TmRef.taskManager).is_preemptive = false := by
      have hrw : (2 : Nat) ^ 32 = 4294967295 + 1 := by norm_num
      rw [hrw]
      exact flag_after_replicate_dis TmRef.taskManager 4294967295 initState
    rw [hcount, hflag] at h2
    have hzero : ((initState.getTm
        TmRef.taskManager).preempt_disable_count + 2 ^ 32) % 2 ^ 32 = 0 := by
      norm_num [initState, Scheduler.new, KernelState.getTm]
    rw [hzero] at h2
    simp at h2


/-! ### Semaphore round trip -/

@[simp]
theorem unblock_tasks_pi0 (tm : TmRef) (m : Nat) (st : KernelState) :
    (unblock_tasks tm m st).pi0 = st.pi0 := by
  simp [unblock_tasks]

@[simp]
theorem unblock_tasks_pi1 (tm : TmRef) (m : Nat) (st : KernelState) :
    (unblock_tasks tm m st).pi1 = st.pi1 := by
  simp [unblock_tasks]

@[simp]
theorem block_tasks_pi1 (tm : TmRef) (m : Nat) (st : KernelState) :
    (block_tasks tm m st).pi1 = st.pi1 := by
  simp [block_tasks]

/-- C7: if task T has its bit in the notify mask M, then after
signal_and_release(M) a test_and_reset executed as T returns true and
clears T's flag bit, and a second test_and_reset by the same task with no
intervening signal returns false. -/
theorem semaphore_round_trip (sem : Semaphore) (M tid : Nat)
    (st : KernelState)
    (hbit : M.testBit tid = true)
    (hcur : get_curr_tid sem.task_manager st = tid)
    (htid : tid < 32) :
    ((sem.signal_and_release M st).1.test_and_reset
        (sem.signal_and_release M st).2).1 = Except.ok true ∧
    ((sem.signal_and_release M st).1.test_and_reset
        (sem.signal_and_release M st).2).2.flags.testBit tid = false ∧
    (((sem.signal_and_release M st).1.test_and_reset
          (sem.signal_and_release M st).2).2.test_and_reset
        (sem.signal_and_release M st).2) =
      (Except.ok false,
       ((sem.signal_and_release M st).1.test_and_reset
           (sem.signal_and_release M st).2).2) := by
  have hs : sem.signal_and_release M st =
      ({ sem with flags := sem.flags ||| M },
       release sem.task_manager sem.tasks st) := rfl
  rw [hs]
  dsimp only
  have hcur1 : get_curr_tid sem.task_manager
      (release sem.task_manager sem.tasks st) = tid := by
    unfold get_curr_tid release at *
    rw [KernelState.getTm_setTm_self]
    exact hcur
  have hfb : (sem.flags ||| M).testBit tid = true := by
    simp [Nat.testBit_or, hbit]
  have ht1 : ({ sem with flags := sem.flags ||| M } : Semaphore).test_and_reset
      (release sem.task_manager sem.tasks st) =
      (Except.ok true,
       { sem with flags := (sem.flags ||| M) &&& compl32 (1 <<< tid) }) := by
    unfold Semaphore.test_and_reset
    dsimp only
    rw [hcur1]
    rw [if_pos ((and_shiftLeft_eq_iff _ _).mpr hfb)]
  rw [ht1]
  dsimp only
  have hcleared : (((sem.flags ||| M) &&& compl32 (1 <<< tid)).testBit tid)
      = false := by
    rw [Nat.testBit_and, compl32_testBit _ _ htid]
    rw [Nat.one_shiftLeft, Nat.testBit_two_pow_self]
    simp
  refine ⟨rfl, hcleared, ?_⟩
  have hne : ¬ ((sem.flags ||| M) &&& compl32 (1 <<< tid)) &&& (1 <<< tid)
      = (1 <<< tid) := by
    intro h
    rw [and_shiftLeft_eq_iff] at h
    rw [h] at hcleared
    exact absurd hcleared (by decide)
  unfold Semaphore.test_and_reset
  dsimp only
  rw [hcur1]
  rw [if_neg hne]

/-- Kernel state in which core 0 runs task 2 and the semaphore flags are
empty. -/
def semW : Semaphore := Semaphore.new TmRef.taskManager 14

theorem semaphore_round_trip_witness :
    ((semW.signal_and_release 4 stW2).1.test_and_reset
        (semW.signal_and_release 4 stW2).2).1 = Except.ok true ∧
    ((semW.signal_and_release 4 stW2).1.test_and_reset
        (semW.signal_and_release 4 stW2).2).2.flags.testBit 2 = false ∧
    (((semW.signal_and_release 4 stW2).1.test_and_reset
          (semW.signal_and_release 4 stW2).2).2.test_and_reset
        (semW.signal_and_release 4 stW2).2) =
      (Except.ok false,
       ((semW.signal_and_release 4 stW2).1.test_and_reset
           (semW.signal_and_release 4 stW2).2).2) :=
  semaphore_round_trip semW 4 2 stW2 (by decide) (by decide) (by decide)

/-! ### C9: unlock always uses the core-0 global PiStack -/

/-- C9: Resource::unlock reads and pops PiStackGlobal regardless of the
pi_stack reference given at construction.  For a Resource built over
PiStackGlobal_C1 (as SharedResource::core1 does): its lock never touches
PiStackGlobal and pushes onto PiStackGlobal_C1, while its unlock never
touches PiStackGlobal_C1, compares its ceiling against PiStackGlobal's
system ceiling and pops PiStackGlobal. -/
theorem unlock_uses_global_pi_stack {T : Type} (r : Resource T)
    (st : KernelState)
    (hpi : r.pi_stack = PiRef.piStackGlobalC1) :
    (r.lock st).2.2.pi0 = st.pi0 ∧
    (r.tasks_mask.testBit (get_curr_tid r.task_manager st) = true →
      st.pi1.top < MAX_RESOURCES →
      (r.ceiling : Int) > st.pi1.system_ceiling →
      (r.lock st).2.2.pi1 =
        { pi_stack := st.pi1.pi_stack.set! st.pi1.top st.pi1.system_ceiling
          top := st.pi1.top + 1
          system_ceiling := Int.ofNat r.ceiling }) ∧
    (r.unlock st).2.pi1 = st.pi1 ∧
    ((r.ceiling : Int) = st.pi0.system_ceiling → st.pi0.top ≠ 0 →
      (r.unlock st).2.pi0 =
        { st.pi0 with
          system_ceiling := st.pi0.pi_stack.get! (st.pi0.top - 1)
          top := st.pi0.top - 1 }) := by
  refine ⟨?_, ?_, ?_, ?_⟩
  · simp only [Resource.lock]
    rw [hpi]
    split
    · rfl
    · split
      · split
        · simp
        · simp
      · rfl
  · intro h1 h2 h3
    have hls := lock_success r st
      ((and_shiftLeft_eq_iff _ _).mpr h1)
      (by rw [hpi]; simpa using h2)
      (by rw [hpi]; simpa using h3)
    rw [hpi] at hls
    rw [hls]
    simp
  · simp only [Resource.unlock, KernelState.getPi_global]
    split
    · split
      · simp
      · simp
    · rfl
  · intro h1 h2
    rw [unlock_pop r st h1 h2]
    simp

/-- A resource wired like SharedResource::core1: TaskManager_C1 and
PiStackGlobal_C1, tasks 1 and 3. -/
def rC9 : Resource Unit :=
  Resource.new Unit TmRef.taskManagerC1 PiRef.piStackGlobalC1 () 10

/-- State for the C9 witness: core 1 runs task 1, and PiStackGlobal
happens to have system ceiling 3 (equal to rC9's ceiling) with one entry. -/
def stC9 : KernelState :=
  { initState with
    tm1 := { Scheduler.new with curr_tid := 1 }
    pi0 := { PiStack.new with system_ceiling := 3, top := 1 } }

theorem unlock_uses_global_pi_stack_witness :
    (rC9.lock stC9).2.2.pi0 = stC9.pi0 ∧
    (rC9.lock stC9).2.2.pi1 =
      { pi_stack := stC9.pi1.pi_stack.set! stC9.pi1.top
          stC9.pi1.system_ceiling
        top := stC9.pi1.top + 1
        system_ceiling := Int.ofNat rC9.ceiling } ∧
    (rC9.unlock stC9).2.pi1 = stC9.pi1 ∧
    (rC9.unlock stC9).2.pi0 =
      { stC9.pi0 with
        system_ceiling := stC9.pi0.pi_stack.get! (stC9.pi0.top - 1)
        top := stC9.pi0.top - 1 } :=
  ⟨(unlock_uses_global_pi_stack rC9 stC9 rfl).1,
   (unlock_uses_global_pi_stack rC9 stC9 rfl).2.1 (by decide) (by decide)
     (by decide),
   (unlock_uses_global_pi_stack rC9 stC9 rfl).2.2.1,
   (unlock_uses_global_pi_stack rC9 stC9 rfl).2.2.2 (by decide) (by decide)⟩

/-! ### C5: the core1 view's peer mask -/

/-- The shared resource of the C5 failing input: tasks_mask0 = 2 (core-0
task 1), tasks_mask1 = 4 (core-1 task 2). -/
def srC5 : SharedResource Unit := SharedResource.new Unit () 2 4

/-- State for C5: core 0 currently runs task 1, which is in tasks_mask0. -/
def stC5 : KernelState :=
  { initState with tm0 := { Scheduler.new with curr_tid := 1 } }

/-- C5: the core0 view is wired as the claim says (peer mask tasks_mask1
against core 1's scheduler), but the core1 view pairs core 0's scheduler
with tasks_mask1 instead of tasks_mask0.  Consequently a core1 spin
iteration at stC5 migrates the stored holder (tid 3) even though core 0's
current task 1 is inside tasks_mask0: the peer scheduler's migrated_tasks
gains bit 3 and the local scheduler records migrated_tid = 3. -/
theorem core1_peer_mask_bug :
    srC5.core0.other_resource_taskmask = srC5.tasks_mask1 ∧
    srC5.core0.other_core_task_manager = TmRef.taskManagerC1 ∧
    srC5.core1.other_core_task_manager = TmRef.taskManager ∧
    srC5.core1.other_resource_taskmask = srC5.tasks_mask1 ∧
    srC5.core1.other_resource_taskmask ≠ srC5.tasks_mask0 ∧
    (1 <<< (stC5.getTm TmRef.taskManager).curr_tid) &&& srC5.tasks_mask0 ≠ 0 ∧
    ((srC5.core1.spinIteration 3 stC5).getTm
        TmRef.taskManager).migrated_tasks = 8 ∧
    ((srC5.core1.spinIteration 3 stC5).getTm
        TmRef.taskManagerC1).migrated_tid = 3 := by
  refine ⟨rfl, rfl, rfl, rfl, by decide, by decide, ?_, ?_⟩ <;> decide
